import Mathlib

/-!
# Verification of the TestSphere-AI sandboxed test-execution engine

Shallow embedding of `src/backend/utils/docker_executor.py` and of the
pytest-output parser in `src/backend/routes/tests_routes.py`, together with
theorems settling the frozen claims C1–C10 about the natural-language
specification of the engine.

Modelling conventions:
* Python strings are Lean `String`s; the Python string primitives used by the
  source (`strip`, `lower`, `find`, `rfind`, slicing, `splitlines`,
  `startswith`, `in`, `replace`) are re-implemented here character-by-character
  so that every definition is executable by the kernel.
* Calls into the Python standard library that parse foreign languages
  (`ast.parse`, `json.loads`, XML parsing) are modelled as explicit
  parameters: the embedding receives the parse result (or `none` for a parse
  error) as an input, exactly as the surrounding source code consumes it.
* Filesystem and process side effects are modelled by explicit data: a run of
  the container is a `RunOutcome` value (completed with exit code and captured
  output / timed out / raised), the set of existing job directories is a list
  of paths, and a forced `docker kill` is recorded in an output list of
  container names.
-/

namespace TestSphere

/-! ## Python-style character and string primitives -/

/-- The characters Python's default `str.strip()` removes. -/
def isPySpace (c : Char) : Bool :=
  c = ' ' || c = '\t' || c = '\n' || c = '\r' || c = '\x0b' || c = '\x0c'

/-- Python `\w` (ASCII word character, as used by the source's regexes). -/
def isWordChar (c : Char) : Bool :=
  c.isAlpha || c.isDigit || c = '_'

/-- Left strip on a character list (Python `str.lstrip()`). -/
def lstripCh (s : List Char) : List Char := s.dropWhile isPySpace

/-- Python `str.strip()` on a character list. -/
def stripCh (s : List Char) : List Char :=
  ((lstripCh s).reverse.dropWhile isPySpace).reverse

/-- Python `str.strip()`. -/
def pyStrip (s : String) : String := String.mk (stripCh s.data)

/-- Python `str.lower()` (ASCII case folding, as needed by the source). -/
def pyLower (s : String) : String := String.mk (s.data.map Char.toLower)

/-- Index of the first occurrence of `pat` in `s` (Python `str.find`),
`none` when absent. -/
def listFindPat (pat : List Char) : List Char → Option Nat
  | [] => if pat = [] then some 0 else none
  | c :: rest =>
    if pat.isPrefixOf (c :: rest) then some 0
    else (listFindPat pat rest).map (· + 1)

/-- Index of the last occurrence of `pat` in `s` (Python `str.rfind`),
`none` when absent. -/
def listRfindPat (pat : List Char) : List Char → Option Nat
  | [] => if pat = [] then some 0 else none
  | c :: rest =>
    match listRfindPat pat rest with
    | some i => some (i + 1)
    | none => if pat.isPrefixOf (c :: rest) then some 0 else none

/-- Python `s.find(pat)` returning `none` instead of `-1`. -/
def pyFind (s pat : String) : Option Nat := listFindPat pat.data s.data

/-- Python `s.rfind(pat)` returning `none` instead of `-1`. -/
def pyRfind (s pat : String) : Option Nat := listRfindPat pat.data s.data

/-- Python `pat in s`. -/
def strContains (s pat : String) : Bool := (pyFind s pat).isSome

/-- Python slice `s[a:b]` (clamping, empty when `a ≥ b`). -/
def sliceCh (s : List Char) (a b : Nat) : List Char := (s.drop a).take (b - a)

/-- Python slice `s[a:b]` on strings. -/
def pySlice (s : String) (a b : Nat) : String := String.mk (sliceCh s.data a b)

/-- Python `s[:n]` (used for truncations such as `error_detail[:2000]`). -/
def pyTake (s : String) (n : Nat) : String := String.mk (s.data.take n)

/-- Python `str.startswith`. -/
def pyStartsWith (s pre : String) : Bool := pre.data.isPrefixOf s.data

/-- Python `str.splitlines()` on character lists: splits on `'\n'` and does
not yield a final empty line for a trailing newline. -/
def splitlinesCh : List Char → List (List Char)
  | [] => []
  | c :: rest =>
    if c = '\n' then [] :: splitlinesCh rest
    else
      match splitlinesCh rest with
      | [] => [[c]]
      | l :: ls => (c :: l) :: ls

/-- Python `str.splitlines()`. -/
def pySplitlines (s : String) : List String := (splitlinesCh s.data).map String.mk

/-- `sep.join` on character lists. -/
def joinCh (sep : List Char) : List (List Char) → List Char
  | [] => []
  | [l] => l
  | l :: ls => l ++ sep ++ joinCh sep ls

/-- Python `"\n".join(lines)`. -/
def joinLines (lines : List String) : String :=
  String.mk (joinCh ['\n'] (lines.map String.data))

/-- Python's `a or b` for an optional string: `None` and `""` are falsy. -/
def pyOrS (a : Option String) (b : String) : String :=
  match a with
  | none => b
  | some s => if s = "" then b else s

/-- Decimal digits to a natural number (the effect of Python `int(...)`
on a digit-only regex group). -/
def digitsToNat (ds : List Char) : Nat :=
  ds.foldl (fun acc c => acc * 10 + (c.toNat - '0'.toNat)) 0

/-! ## A generic left-to-right scanning substitution (Python `re.sub`)

`f` tries to match at the head of the given suffix; on a match it returns the
replacement text and the number of characters consumed.  As in `re.sub`, the
scan restarts after the consumed text, and (like Python's empty-match rule)
always advances by at least one character.  The fuel is the remaining length,
which suffices because every step consumes at least one character. -/

def subGo (f : List Char → Option (List Char × Nat)) : Nat → List Char → List Char
  | 0, s => s
  | _ + 1, [] => []
  | fuel + 1, c :: rest =>
    match f (c :: rest) with
    | some (repl, k) => repl ++ subGo f fuel ((c :: rest).drop (max k 1))
    | none => c :: subGo f fuel rest

/-- Python `re.sub(pattern, repl, s)` driven by a head matcher `f`. -/
def pySub (f : List Char → Option (List Char × Nat)) (s : String) : String :=
  String.mk (subGo f s.data.length s.data)

/-- A matcher that never rewrites (returns the matched text itself) leaves
the input unchanged. -/
theorem subGo_id (f : List Char → Option (List Char × Nat))
    (hf : ∀ t r k, f t = some (r, k) → 1 ≤ k ∧ r = t.take k) :
    ∀ fuel s, s.length ≤ fuel → subGo f fuel s = s := by
  intro fuel
  induction fuel with
  | zero => intro s _; rfl
  | succ n ih =>
    intro s hs
    match s with
    | [] => rfl
    | c :: rest =>
      rw [subGo]
      cases hmatch : f (c :: rest) with
      | none =>
        simp only []
        have : rest.length ≤ n := by
          simpa using Nat.le_of_succ_le_succ hs
        rw [ih rest this]
      | some rk =>
        obtain ⟨r, k⟩ := rk
        obtain ⟨hk, hr⟩ := hf _ _ _ hmatch
        simp only []
        have hmax : max k 1 = k := by omega
        rw [hmax, hr]
        have hlen : ((c :: rest).drop k).length ≤ n := by
          simp only [List.length_drop, List.length_cons] at *
          omega
        rw [ih _ hlen, List.take_append_drop]

/-- Python `str.replace(pat, repl)` with a non-empty `pat`
(case-sensitive, all occurrences). -/
def pyReplace (s pat repl : String) : String :=
  pySub (fun t => if pat.data ≠ [] ∧ pat.data.isPrefixOf t then
                    some (repl.data, pat.data.length)
                  else none) s

/-- Match `pre` against the head of `s` case-insensitively (ASCII);
on success return the suffix of `s` after the matched prefix. -/
def matchCI : List Char → List Char → Option (List Char)
  | [], s => some s
  | _ :: _, [] => none
  | p :: ps, c :: cs => if p.toLower = c.toLower then matchCI ps cs else none

/-- Match `pre` literally (case-sensitively) against the head of `s`;
on success return the suffix. -/
def matchLit : List Char → List Char → Option (List Char)
  | [], s => some s
  | _ :: _, [] => none
  | p :: ps, c :: cs => if p = c then matchLit ps cs else none

/-- Match one-or-more characters satisfying `p` at the head of `s`; on
success return (greedily matched run, suffix). -/
def matchPlus (p : Char → Bool) (s : List Char) : Option (List Char × List Char) :=
  let run := s.takeWhile p
  if run = [] then none else some (run, s.dropWhile p)

/-! ## Data model

The unified result shape returned by the three pipelines.  The Python source
returns plain dicts; keys that a branch does not set (`xml_reports`,
`test_results_json`, `container_name` on the timeout/exception arms) are
modelled as an empty list / `none`. -/

/-- One per-test outcome (`TestCase` of the spec): the dict entries built by
the result parsers. -/
structure TestCase where
  name : String
  status : String
  duration : Nat
  description : String
  error : Option String
  deriving Repr, DecidableEq

/-- The `test_summary` / `test_results_json` dict: summary counters plus the
failure strings (Java legacy field) and the rich per-test list (JS path).
`passed` is an `Int` because the Java path computes it by subtraction on
Python integers. -/
structure TestSummary where
  total : Nat
  passed : Int
  failed : Nat
  skipped : Nat
  failures : List String
  tests : List TestCase
  deriving Repr, DecidableEq

/-- The dict returned by each executor. -/
structure ExecResult where
  success : Bool
  exit_code : Int
  output : String
  errors : String
  xml_reports : List String
  test_results_json : Option TestSummary
  deriving Repr, DecidableEq

/-- Outcome of the single blocking `subprocess.run(docker_cmd, ...)` call:
the process completed with an exit code and captured stdout/stderr, the wait
timed out (`subprocess.TimeoutExpired`), or some other exception was raised
while preparing or launching (`except Exception as e`). -/
inductive RunOutcome where
  | completed (rc : Int) (stdout stderr : String)
  | timedOut
  | raised (msg : String)
  deriving Repr, DecidableEq

/-! ## Language detection (`_detect_language`, docker_executor.py lines 91–140) -/

/-- The `_TS_PATTERNS` list of TypeScript-specific syntax markers. -/
def tsPatterns : List String :=
  [": string", ": number", ": boolean", ": void", ": never", ": any",
   ": null", ": undefined", ": object",
   "interface ", "type ", "enum ",
   ": string[]", ": number[]", ": boolean[]",
   "as string", "as number", "as boolean",
   "<T>", "<T,", "<T extends",
   "@ts-", "// @ts",
   "private ", "public ", "protected ", "readonly ",
   ": Promise<", ": Array<",
   "export interface", "export type", "export enum",
   "@ts-expect-error", "@ts-ignore"]

/-- `re.search(r"\bpublic\s+class\b", s)`: at some position not preceded by a
word character, the literal `public`, one or more whitespace characters, the
literal `class`, and no word character directly after. -/
def publicClassAt (s : List Char) : Bool :=
  match matchLit "public".data s with
  | none => false
  | some afterPublic =>
    match matchPlus isPySpace afterPublic with
    | none => false
    | some (_, afterWs) =>
      match matchLit "class".data afterWs with
      | none => false
      | some rest =>
        match rest with
        | [] => true
        | c :: _ => !isWordChar c

/-- Scan all positions for `\bpublic\s+class\b`, tracking whether the
previous character is a word character (for the left word boundary). -/
def hasPublicClassGo (prevIsWord : Bool) : List Char → Bool
  | [] => false
  | c :: rest =>
    ((!prevIsWord) && publicClassAt (c :: rest)) || hasPublicClassGo (isWordChar c) rest

/-- `bool(re.search(r"\bpublic\s+class\b", combined))`. -/
def hasPublicClass (s : String) : Bool := hasPublicClassGo false s.data

/-- `_detect_language(source_code, test_code, language)`
(docker_executor.py lines 91–140). -/
def _detect_language (sourceCode testCode : String) (language : Option String) : String :=
  let lang := pyStrip (pyLower (language.getD ""))
  if lang = "python" || lang = "java" then lang
  else
    let combined := sourceCode ++ "\n" ++ testCode
    let hasTsSyntax := tsPatterns.any (fun p => strContains combined p)
    if lang = "typescript" || lang = "ts" || hasTsSyntax then "typescript"
    else if lang = "javascript" || lang = "js" then "javascript"
    else if lang ≠ "" then lang
    else
      let hasJavaImports := strContains combined "import java." || strContains combined "import org."
      if hasPublicClass combined && hasJavaImports then "java"
      else if ["describe(", "it(", "test(", "expect(", "jest.", "require("].any
                (fun x => strContains combined x) then
        if hasTsSyntax then "typescript" else "javascript"
      else "python"

/-- Claim C9 (amended): when the caller's `declaredLanguage`, after the
lowercasing and stripping the detector applies first, is non-empty and outside
the recognized set {python, java, typescript, ts, javascript, js}, and the
combined source+test text contains no TypeScript syntax marker, language
detection returns the lowercased, stripped caller string — hence an
already-normalized unrecognized value such as "ruby" is returned unchanged,
and the detected language is not confined to the four supported enum
values. -/
theorem _detect_language_passthrough (src test lang : String)
    (hne : pyStrip (pyLower lang) ≠ "")
    (h1 : pyStrip (pyLower lang) ≠ "python")
    (h2 : pyStrip (pyLower lang) ≠ "java")
    (h3 : pyStrip (pyLower lang) ≠ "typescript")
    (h4 : pyStrip (pyLower lang) ≠ "ts")
    (h5 : pyStrip (pyLower lang) ≠ "javascript")
    (h6 : pyStrip (pyLower lang) ≠ "js")
    (hts : tsPatterns.any (fun p => strContains (src ++ "\n" ++ test) p) = false) :
    _detect_language src test (some lang) = pyStrip (pyLower lang) := by
  simp only [_detect_language, Option.getD, hts]
  rw [if_neg (by simp [h1, h2]), if_neg (by simp [h3, h4]),
    if_neg (by simp [h5, h6]), if_pos (by simp [hne])]

/-- Claim C9, witness: the declared language "ruby" (no TypeScript markers in
the empty source and test) is returned unchanged. -/
theorem _detect_language_passthrough_witness :
    _detect_language "" "" (some "ruby") = pyStrip (pyLower "ruby") ∧
      pyStrip (pyLower "ruby") = "ruby" :=
  ⟨_detect_language_passthrough "" "" "ruby" (by decide) (by decide) (by decide)
    (by decide) (by decide) (by decide) (by decide) (by decide), by decide⟩

/-- Claim C9, counterexample to the claim as stated: the caller's string is
not always returned unchanged — the declared language "Ruby" (non-empty,
outside the recognized set, no TypeScript marker in the empty code) is
returned lowercased as "ruby". -/
theorem _detect_language_not_unchanged :
    _detect_language "" "" (some "Ruby") = "ruby" ∧ ("ruby" : String) ≠ "Ruby" := by
  constructor
  · decide
  · decide


/-- `splitlinesCh` after appending a line (without newlines) and a `'\n'`
separator peels off exactly that line. -/
theorem splitlinesCh_append (x t : List Char) (hx : '\n' ∉ x) :
    splitlinesCh (x ++ '\n' :: t) = x :: splitlinesCh t := by
  induction x with
  | nil => simp [splitlinesCh]
  | cons c x ih =>
    have hc : c ≠ '\n' := by
      intro h; exact hx (h ▸ List.mem_cons_self c x)
    have hx' : '\n' ∉ x := fun h => hx (List.mem_cons_of_mem c h)
    simp only [List.cons_append, splitlinesCh, if_neg hc]
    rw [show x.append ('\n' :: t) = x ++ '\n' :: t from rfl, ih hx']

/-- A non-empty, newline-free string is a single line. -/
theorem splitlinesCh_single (x : List Char) (hne : x ≠ []) (hx : '\n' ∉ x) :
    splitlinesCh x = [x] := by
  induction x with
  | nil => exact absurd rfl hne
  | cons c x ih =>
    have hc : c ≠ '\n' := by
      intro h; exact hx (h ▸ List.mem_cons_self c x)
    have hx' : '\n' ∉ x := fun h => hx (List.mem_cons_of_mem c h)
    rcases Decidable.em (x = []) with h | h
    · subst h; simp [splitlinesCh, hc]
    · simp only [splitlinesCh, if_neg hc, ih h hx']

/-- Splitting the `'\n'`-join of non-empty, newline-free lines recovers the
lines. -/
theorem splitlinesCh_joinCh (ls : List (List Char)) (hne : ls ≠ [])
    (h : ∀ l ∈ ls, l ≠ [] ∧ '\n' ∉ l) :
    splitlinesCh (joinCh ['\n'] ls) = ls := by
  induction ls with
  | nil => exact absurd rfl hne
  | cons x ls ih =>
    rcases Decidable.em (ls = []) with hl | hl
    · subst hl
      obtain ⟨hx1, hx2⟩ := h x (List.mem_cons_self x [])
      simpa [joinCh] using splitlinesCh_single x hx1 hx2
    · have hx := h x (List.mem_cons_self x ls)
      have hjoin : joinCh ['\n'] (x :: ls) = x ++ '\n' :: joinCh ['\n'] ls := by
        match ls, hl with
        | y :: ls, _ => simp [joinCh]
      rw [hjoin, splitlinesCh_append x _ hx.2,
        ih hl (fun l hm => h l (List.mem_cons_of_mem x hm))]

/-- `pySplitlines` recovers the lines of a `joinLines` of non-empty,
newline-free lines. -/
theorem pySplitlines_joinLines (ls : List String) (hne : ls ≠ [])
    (h : ∀ l ∈ ls, l.data ≠ [] ∧ '\n' ∉ l.data) :
    pySplitlines (joinLines ls) = ls := by
  unfold pySplitlines joinLines
  rw [show (String.mk (joinCh ['\n'] (ls.map String.data))).data
        = joinCh ['\n'] (ls.map String.data) from rfl]
  rw [splitlinesCh_joinCh (ls.map String.data)
      (by simpa using hne)
      (by intro l hm
          obtain ⟨a, ha, rfl⟩ := List.mem_map.1 hm
          exact h a ha)]
  rw [List.map_map]
  have : (String.mk ∘ String.data) = id := by
    funext a; rfl
  rw [this, List.map_id]


/-! ## Requirements merging (`_merge_requirements`, docker_executor.py lines 241–255) -/

/-- First pass of `_merge_requirements`: collect the lowercased, stripped,
non-empty, non-comment user lines into the `combined` set (modelled as a
list used only through membership). -/
def mergeUserStep (acc : List String) (line : String) : List String :=
  let l := pyStrip line
  if l ≠ "" ∧ pyStartsWith l "#" = false then pyLower l :: acc else acc

/-- Second pass of `_merge_requirements`: append each stripped auto line
whose lowercase form is not yet in `combined`, updating `combined`. -/
def mergeAutoStep (st : List String × List String) (line : String) :
    List String × List String :=
  let l := pyStrip line
  if l ≠ "" ∧ pyLower l ∉ st.2 then (st.1 ++ [l], pyLower l :: st.2)
  else st

/-- `_merge_requirements(user_req, auto_req)` (docker_executor.py lines
241–255): the result keeps the user's original non-blank lines followed by
the auto lines not already present (case-insensitively), or is `None` when
nothing remains. -/
def _merge_requirements (userReq : Option String) (autoReq : String) : Option String :=
  let userLines := pySplitlines (userReq.getD "")
  let combined := userLines.foldl mergeUserStep []
  let autoState := (pySplitlines autoReq).foldl mergeAutoStep ([], combined)
  let allLines := userLines.filter (fun l => pyStrip l ≠ "") ++ autoState.1
  if allLines = [] then none else some (joinLines allLines)

/-- Accumulated members survive the first merge pass. -/
theorem mem_foldl_mergeUserStep (lines : List String) :
    ∀ (acc : List String) (x : String), x ∈ acc → x ∈ lines.foldl mergeUserStep acc := by
  induction lines with
  | nil => intro acc x hx; simpa using hx
  | cons line rest ih =>
    intro acc x hx
    simp only [List.foldl_cons]
    apply ih
    simp only [mergeUserStep]
    split
    · exact List.mem_cons_of_mem _ hx
    · exact hx

/-- Every non-empty, non-comment user line's lowercased strip ends up in the
`combined` set built by the first merge pass. -/
theorem mem_combined_of_mem (lines : List String) :
    ∀ (acc : List String) (l : String), l ∈ lines → pyStrip l ≠ "" →
      pyStartsWith (pyStrip l) "#" = false →
      pyLower (pyStrip l) ∈ lines.foldl mergeUserStep acc := by
  induction lines with
  | nil => intro _ _ h; simp at h
  | cons line rest ih =>
    intro acc l hl hne hcomment
    simp only [List.foldl_cons]
    rcases List.mem_cons.1 hl with rfl | hmem
    · apply mem_foldl_mergeUserStep
      simp only [mergeUserStep]
      rw [if_pos ⟨hne, hcomment⟩]
      exact List.mem_cons_self _ _
    · exact ih _ l hmem hne hcomment

/-- The second merge pass is the identity when every auto line's lowercased
strip is already in the `combined` set. -/
theorem foldl_mergeAutoStep_skip (lines : List String) :
    ∀ (st : List String × List String),
      (∀ l ∈ lines, pyLower (pyStrip l) ∈ st.2) →
      lines.foldl mergeAutoStep st = st := by
  induction lines with
  | nil => intro st _; rfl
  | cons line rest ih =>
    intro st h
    have hmem : pyLower (pyStrip line) ∈ st.2 := h line (List.mem_cons_self _ _)
    simp only [List.foldl_cons]
    have hstep : mergeAutoStep st line = st := by
      simp only [mergeAutoStep]
      rw [if_neg (fun hcon => hcon.2 hmem)]
    rw [hstep]
    exact ih st (fun l hl => h l (List.mem_cons_of_mem _ hl))

/-- Claim C7 (amended): merging an already-merged requirements text with
itself yields the text again **provided it contains no comment lines**: for
any non-empty list of newline-free lines, each non-blank after stripping and
not starting with `#`, merging their join with itself returns the join
unchanged (duplicate detection is case-insensitive, so this holds whatever
the casing of the lines).  The comment-line proviso is forced by the
counterexample `merge_requirements_not_idem`. -/
theorem merge_requirements_idem (ls : List String) (hne : ls ≠ [])
    (h : ∀ l ∈ ls, pyStrip l ≠ "" ∧ pyStartsWith (pyStrip l) "#" = false ∧
      '\n' ∉ l.data) :
    _merge_requirements (some (joinLines ls)) (joinLines ls) = some (joinLines ls) := by
  have hdata : ∀ l ∈ ls, l.data ≠ [] ∧ '\n' ∉ l.data := by
    intro l hl
    refine ⟨?_, (h l hl).2.2⟩
    intro hempty
    have hl0 : l = "" := by
      cases l with
      | mk d =>
        have hd : d = [] := hempty
        subst hd
        rfl
    subst hl0
    exact (h _ hl).1 rfl
  have hsplit : pySplitlines (joinLines ls) = ls := pySplitlines_joinLines ls hne hdata
  unfold _merge_requirements
  simp only [Option.getD, hsplit]
  have hskip : (ls.foldl mergeAutoStep ([], ls.foldl mergeUserStep [])) =
      ([], ls.foldl mergeUserStep []) := by
    apply foldl_mergeAutoStep_skip
    intro l hl
    exact mem_combined_of_mem ls [] l hl (h l hl).1 (h l hl).2.1
  rw [hskip]
  have hfilter : ls.filter (fun l => decide (pyStrip l ≠ "")) = ls := by
    apply List.filter_eq_self.2
    intro l hl
    simpa using (h l hl).1
  simp only [hfilter, List.append_nil]
  rw [if_neg hne]

/-- Claim C7, witness: a concrete comment-free merged text is a fixed point
of merging with itself. -/
theorem merge_requirements_idem_witness :
    _merge_requirements (some "Flask\nnumpy") "Flask\nnumpy" = some "Flask\nnumpy" := by
  have h := merge_requirements_idem ["Flask", "numpy"] (by decide)
    (by intro l hl; fin_cases hl <;> exact ⟨by decide, by decide, by decide⟩)
  have hj : joinLines ["Flask", "numpy"] = "Flask\nnumpy" := by decide
  rwa [hj] at h

/-- Claim C7, counterexample to the claim as stated: `"# pinned\nflask"` is
itself a merge result (so an "already-merged requirements text"), yet merging
it with itself duplicates the comment line, because the first pass skips
comment lines when filling the duplicate-detection set while the second pass
does not skip them when appending. -/
theorem merge_requirements_not_idem :
    _merge_requirements (some "# pinned\nflask") "" = some "# pinned\nflask" ∧
    _merge_requirements (some "# pinned\nflask") "# pinned\nflask"
      = some "# pinned\nflask\n# pinned" ∧
    ("# pinned\nflask\n# pinned" : String) ≠ "# pinned\nflask" := by
  refine ⟨by decide, by decide, by decide⟩

/-! ## Dependency inference (`_auto_detect_pip_requirements`,
docker_executor.py lines 148–238)

`ast.parse`/`ast.walk` are modelled by the input `parsedImports`: `none` for
a `SyntaxError`, otherwise the dotted module names of all `Import` aliases
and absolute (`level == 0`) `ImportFrom` modules in the order `ast.walk`
yields them.  `sys.stdlib_module_names` (interpreter-dependent) is the
parameter `sysStdlib`; the explicit extension set of the source is the
literal list below. -/

/-- The `_IMPORT_TO_PIP` map from import names to pip package names. -/
def _IMPORT_TO_PIP : List (String × String) :=
  [("PIL", "Pillow"),
   ("cv2", "opencv-python"),
   ("sklearn", "scikit-learn"),
   ("bs4", "beautifulsoup4"),
   ("serial", "pyserial"),
   ("yaml", "PyYAML"),
   ("dateutil", "python-dateutil"),
   ("dotenv", "python-dotenv"),
   ("Crypto", "pycryptodome"),
   ("nacl", "PyNaCl"),
   ("google", "google-cloud"),
   ("boto3", "boto3"),
   ("botocore", "botocore"),
   ("pymysql", "PyMySQL"),
   ("psycopg2", "psycopg2-binary"),
   ("motor", "motor"),
   ("aiohttp", "aiohttp"),
   ("httpx", "httpx"),
   ("pydantic", "pydantic"),
   ("fastapi", "fastapi"),
   ("starlette", "starlette"),
   ("celery", "celery"),
   ("redis", "redis"),
   ("elasticsearch", "elasticsearch"),
   ("mongoengine", "mongoengine"),
   ("passlib", "passlib"),
   ("jwt", "PyJWT"),
   ("freezegun", "freezegun"),
   ("faker", "Faker"),
   ("factory_boy", "factory_boy"),
   ("hypothesis", "hypothesis"),
   ("responses", "responses"),
   ("moto", "moto"),
   ("pytest_mock", "pytest-mock"),
   ("respx", "respx"),
   ("time_machine", "time-machine")]

/-- The explicit part of `_STDLIB_MODULES` (the source extends
`sys.stdlib_module_names` with this literal set). -/
def stdlibExplicit : List String :=
  ["os", "sys", "re", "json", "datetime", "time", "collections", "functools",
   "itertools", "typing", "unittest", "pytest", "logging", "pathlib", "subprocess",
   "tempfile", "shutil", "uuid", "random", "math", "decimal", "statistics",
   "hashlib", "hmac", "secrets", "urllib", "io", "abc", "copy", "dataclasses",
   "enum", "contextlib", "threading", "multiprocessing", "socket", "ssl",
   "struct", "base64", "binascii", "codecs", "csv", "xml", "html", "http",
   "email", "mimetypes", "builtins", "warnings", "weakref", "gc", "inspect",
   "ast", "dis", "tokenize", "importlib", "pkgutil", "site", "traceback",
   "pprint", "textwrap", "string", "difflib", "fnmatch", "glob", "zipfile",
   "tarfile", "gzip", "bz2", "lzma", "zlib", "sqlite3", "configparser",
   "argparse", "getopt", "shlex", "operator", "numbers", "array", "queue",
   "heapq", "bisect", "calendar", "locale", "gettext", "platform", "signal",
   "mock", "_pytest", "conftest",
   "pytest", "flask", "requests", "werkzeug"]

/-- `name.split(".")[0]`. -/
def splitDotHead (s : String) : String :=
  String.mk (s.data.takeWhile (fun c => c ≠ '.'))

/-- Characters with equal code points are equal. -/
theorem charToNat_inj {a b : Char} (h : a.toNat = b.toNat) : a = b := by
  unfold Char.toNat at h
  exact Char.eq_of_val_eq (UInt32.toNat.inj h)

/-- Lexicographic code-point comparison of character lists — the order
Python's `sorted` uses on strings. -/
def charListLe : List Char → List Char → Bool
  | [], _ => true
  | _ :: _, [] => false
  | a :: as, b :: bs => if a = b then charListLe as bs else decide (a.toNat < b.toNat)

/-- Python's `s1 <= s2` on strings. -/
def strLe (a b : String) : Bool := charListLe a.data b.data

theorem charListLe_total : ∀ as bs : List Char,
    charListLe as bs = true ∨ charListLe bs as = true
  | [], _ => Or.inl rfl
  | _ :: _, [] => Or.inr rfl
  | a :: as, b :: bs => by
    by_cases hab : a = b
    · subst hab
      simp only [charListLe, if_pos rfl]
      exact charListLe_total as bs
    · have hne : a.toNat ≠ b.toNat := fun h => hab (charToNat_inj h)
      simp only [charListLe, if_neg hab, if_neg (Ne.symm hab)]
      rcases Nat.lt_or_ge a.toNat b.toNat with h | h
      · exact Or.inl (by simpa using h)
      · refine Or.inr ?_
        simp only [decide_eq_true_eq]
        omega

theorem charListLe_trans : ∀ as bs cs : List Char,
    charListLe as bs = true → charListLe bs cs = true → charListLe as cs = true
  | [], _, _, _, _ => rfl
  | _ :: _, [], _, h, _ => by simp [charListLe] at h
  | _ :: _, _ :: _, [], _, h => by simp [charListLe] at h
  | a :: as, b :: bs, c :: cs, h1, h2 => by
    by_cases hab : a = b <;> by_cases hbc : b = c
    · subst hab; subst hbc
      simp only [charListLe, if_pos rfl] at h1 h2 ⊢
      exact charListLe_trans as bs cs h1 h2
    · subst hab
      simp only [charListLe, if_pos rfl, if_neg hbc] at h1 h2 ⊢
      exact h2
    · subst hbc
      simp only [charListLe, if_neg hab] at h1 ⊢
      exact h1
    · have h13 : a.toNat < b.toNat := by
        simpa [charListLe, if_neg hab] using h1
      have h23 : b.toNat < c.toNat := by
        simpa [charListLe, if_neg hbc] using h2
      have hac : a ≠ c := by
        intro h; subst h
        have : a.toNat < a.toNat := Nat.lt_trans h13 h23
        omega
      simp only [charListLe, if_neg hac, decide_eq_true_eq]
      omega

theorem charListLe_antisymm : ∀ as bs : List Char,
    charListLe as bs = true → charListLe bs as = true → as = bs
  | [], [], _, _ => rfl
  | [], _ :: _, _, h => by simp [charListLe] at h
  | _ :: _, [], h, _ => by simp [charListLe] at h
  | a :: as, b :: bs, h1, h2 => by
    by_cases hab : a = b
    · subst hab
      simp only [charListLe, if_pos rfl] at h1 h2
      rw [charListLe_antisymm as bs h1 h2]
    · have h13 : a.toNat < b.toNat := by
        simpa [charListLe, if_neg hab] using h1
      have h23 : b.toNat < a.toNat := by
        simpa [charListLe, if_neg (Ne.symm hab)] using h2
      omega

theorem strLe_total (a b : String) : strLe a b = true ∨ strLe b a = true :=
  charListLe_total a.data b.data

theorem strLe_trans {a b c : String} (h1 : strLe a b = true)
    (h2 : strLe b c = true) : strLe a c = true :=
  charListLe_trans a.data b.data c.data h1 h2

theorem strLe_antisymm {a b : String} (h1 : strLe a b = true)
    (h2 : strLe b a = true) : a = b := by
  cases a; cases b
  exact congrArg String.mk (charListLe_antisymm _ _ h1 h2)

/-- One step of insertion sort under `strLe`. -/
def insertSorted (x : String) : List String → List String
  | [] => [x]
  | y :: ys => if strLe x y then x :: y :: ys else y :: insertSorted x ys

/-- Insertion sort of strings under code-point order — the effect of
Python's `sorted` on a list of distinct strings. -/
def sortStrings : List String → List String
  | [] => []
  | x :: xs => insertSorted x (sortStrings xs)

theorem insertSorted_perm (x : String) : ∀ l, List.Perm (insertSorted x l) (x :: l)
  | [] => List.Perm.refl _
  | y :: ys => by
    unfold insertSorted
    split
    · exact List.Perm.refl _
    · exact ((insertSorted_perm x ys).cons y).trans (List.Perm.swap x y ys)

theorem sortStrings_perm : ∀ l, List.Perm (sortStrings l) l
  | [] => List.Perm.refl _
  | x :: xs => (insertSorted_perm x (sortStrings xs)).trans ((sortStrings_perm xs).cons x)

theorem mem_insertSorted {z x : String} {l : List String} :
    z ∈ insertSorted x l ↔ z = x ∨ z ∈ l := by
  rw [(insertSorted_perm x l).mem_iff, List.mem_cons]

theorem insertSorted_sorted (x : String) :
    ∀ l, l.Pairwise (fun a b => strLe a b = true) →
      (insertSorted x l).Pairwise (fun a b => strLe a b = true)
  | [], _ => List.pairwise_singleton _ _
  | y :: ys, h => by
    unfold insertSorted
    split
    case isTrue hxy =>
      refine List.Pairwise.cons ?_ h
      intro z hz
      rcases List.mem_cons.1 hz with rfl | hz
      · exact hxy
      · exact strLe_trans hxy ((List.pairwise_cons.1 h).1 z hz)
    case isFalse hxy =>
      have hyx : strLe y x = true := by
        rcases strLe_total x y with h' | h'
        · exact absurd h' hxy
        · exact h'
      refine List.Pairwise.cons ?_ (insertSorted_sorted x ys (List.pairwise_cons.1 h).2)
      intro z hz
      rcases mem_insertSorted.1 hz with rfl | hz
      · exact hyx
      · exact (List.pairwise_cons.1 h).1 z hz

theorem sortStrings_sorted : ∀ l, (sortStrings l).Pairwise (fun a b => strLe a b = true)
  | [] => List.Pairwise.nil
  | x :: xs => insertSorted_sorted x (sortStrings xs) (sortStrings_sorted xs)

/-- `sorted` depends only on the multiset of inputs. -/
theorem sortStrings_eq_of_perm {l₁ l₂ : List String} (h : List.Perm l₁ l₂) :
    sortStrings l₁ = sortStrings l₂ := by
  haveI : IsAntisymm String (fun a b => strLe a b = true) :=
    ⟨fun _ _ h1 h2 => strLe_antisymm h1 h2⟩
  exact List.eq_of_perm_of_sorted
    ((sortStrings_perm l₁).trans (h.trans (sortStrings_perm l₂).symm))
    (sortStrings_sorted l₁) (sortStrings_sorted l₂)

/-- The `packages` list built by `_auto_detect_pip_requirements`: iterate
over `sorted(top_level_imports)` (the set of first components of the
collected dotted names), skip stdlib and excluded local modules, and map the
rest through `_IMPORT_TO_PIP`. -/
def autoDetectPackages (sysStdlib : List String) (names : List String)
    (exclude : List String) : List String :=
  let topLevel := (names.map splitDotHead).dedup
  let sortedMods := sortStrings topLevel
  sortedMods.filterMap (fun mod =>
    if mod ∈ sysStdlib ∨ mod ∈ stdlibExplicit then none
    else if mod ∈ exclude then none
    else some ((_IMPORT_TO_PIP.lookup mod).getD mod))

/-- `_auto_detect_pip_requirements(test_code, exclude)`
(docker_executor.py lines 208–238). -/
def _auto_detect_pip_requirements (sysStdlib : List String)
    (parsedImports : Option (List String)) (exclude : List String) : String :=
  match parsedImports with
  | none => ""
  | some names =>
    let packages := autoDetectPackages sysStdlib names exclude
    if packages = [] then "" else joinLines packages

/-- Claim C8 (amended): dependency inference collects top-level imported
module names, removes stdlib and caller-excluded names, and maps the rest
through `_IMPORT_TO_PIP`; but the resulting package list is ordered by the
**alphabetically sorted** module names (`sorted(top_level_imports)` over a
set), not by discovery order: the output is invariant under any permutation
of the discovery order, and every surviving import name contributes its
mapped package. -/
theorem auto_detect_sorted_not_discovery (sysStdlib exclude : List String) :
    (∀ names₁ names₂ : List String, names₁.Perm names₂ →
      _auto_detect_pip_requirements sysStdlib (some names₁) exclude
        = _auto_detect_pip_requirements sysStdlib (some names₂) exclude) ∧
    (∀ (names : List String) (mod : String), mod ∈ names.map splitDotHead →
      mod ∉ sysStdlib → mod ∉ stdlibExplicit → mod ∉ exclude →
      ((_IMPORT_TO_PIP.lookup mod).getD mod)
        ∈ autoDetectPackages sysStdlib names exclude) := by
  constructor
  · intro names₁ names₂ hperm
    have hsort : sortStrings ((names₁.map splitDotHead).dedup)
        = sortStrings ((names₂.map splitDotHead).dedup) :=
      sortStrings_eq_of_perm ((hperm.map splitDotHead).dedup)
    unfold _auto_detect_pip_requirements autoDetectPackages
    simp only [hsort]
  · intro names mod hmem hsys hstd hexc
    unfold autoDetectPackages
    simp only []
    apply List.mem_filterMap.2
    refine ⟨mod, ?_, ?_⟩
    · rw [(sortStrings_perm _).mem_iff]
      exact List.mem_dedup.2 hmem
    · rw [if_neg (by tauto), if_neg hexc]

/-- Claim C8, witness: `yaml` (not stdlib, not excluded) contributes its
mapped package `PyYAML`, and permuting the discovery order does not change
the result. -/
theorem auto_detect_sorted_witness :
    ("PyYAML" : String) ∈ autoDetectPackages [] ["yaml", "bs4"] [] ∧
    _auto_detect_pip_requirements [] (some ["yaml", "bs4"]) []
      = _auto_detect_pip_requirements [] (some ["bs4", "yaml"]) [] := by
  constructor
  · have h := (auto_detect_sorted_not_discovery [] []).2 ["yaml", "bs4"] "yaml"
      (by decide) (by decide) (by decide) (by decide)
    have hlk : ((_IMPORT_TO_PIP.lookup "yaml").getD "yaml") = "PyYAML" := by decide
    rwa [hlk] at h
  · exact (auto_detect_sorted_not_discovery [] []).1 ["yaml", "bs4"] ["bs4", "yaml"]
      (by decide)

/-- Claim C8, counterexample to the claim as stated: the package list does
not preserve discovery order — for imports discovered in the order
`yaml`, `bs4` (neither stdlib nor excluded), the result lists the packages in
the alphabetical order of the import names (`bs4` before `yaml`), not in
discovery order. -/
theorem auto_detect_not_discovery_order :
    _auto_detect_pip_requirements [] (some ["yaml", "bs4"]) []
      = "beautifulsoup4\nPyYAML" ∧
    ("beautifulsoup4\nPyYAML" : String) ≠ "PyYAML\nbeautifulsoup4" := by
  refine ⟨by decide, by decide⟩

/-! ## JavaScript / TypeScript result parsing
(docker_executor.py lines 1021–1218)

The Jest and Mocha JSON documents produced by `json.loads` are modelled as
structures mirroring exactly the keys the source reads; `json.loads` itself
(and `json.JSONDecoder().raw_decode`) are oracle parameters
`loads…`/`rawDecode…` of type `String → Option _`, `none` standing for a
parse error. -/

/-- One entry of a Jest suite's `testResults` array, with the keys
`_jest_json_to_tests` reads. -/
structure JestAssertion where
  fullName : Option String
  title : Option String
  status : String
  duration : Option Nat
  failureMessages : List String
  deriving Repr, DecidableEq

/-- One entry of the top-level Jest `testResults` array. -/
structure JestSuite where
  testResults : List JestAssertion
  deriving Repr, DecidableEq

/-- The parsed Jest `--json` document. -/
structure JestData where
  testResults : List JestSuite
  deriving Repr, DecidableEq

/-- The per-assertion conversion inside `_jest_json_to_tests`: any status
other than `"passed"` becomes `"failed"`. -/
def jestCaseOfAssertion (t : JestAssertion) : TestCase :=
  let name := pyOrS t.fullName (pyOrS t.title "unknown")
  { name := name
    status := if t.status = "passed" then "passed" else "failed"
    duration := t.duration.getD 0
    description := name
    error := if t.failureMessages ≠ [] then some (joinLines t.failureMessages) else none }

/-- `_jest_json_to_tests(data)` (docker_executor.py lines 1044–1062). -/
def _jest_json_to_tests (data : JestData) : List TestCase :=
  (data.testResults.map (fun suite => suite.testResults.map jestCaseOfAssertion)).flatten

/-- The `err` object of a Mocha failure; `reprText` models Python
`str(err_obj)`, which is never the empty string for a dict. -/
structure MochaErr where
  message : Option String
  stack : Option String
  reprText : String
  deriving Repr, DecidableEq

/-- One entry of the Mocha `passes`/`failures`/`pending` arrays. -/
structure MochaTest where
  fullTitle : Option String
  title : Option String
  duration : Option Nat
  err : MochaErr
  deriving Repr, DecidableEq

/-- The parsed Mocha `--reporter json` document. -/
structure MochaData where
  passes : List MochaTest
  failures : List MochaTest
  pending : List MochaTest
  deriving Repr, DecidableEq

/-- The conversion of one Mocha `passes` entry. -/
def mochaPassCase (t : MochaTest) : TestCase :=
  let title := pyOrS t.fullTitle (pyOrS t.title "unknown")
  { name := title, status := "passed", duration := t.duration.getD 0,
    description := title, error := none }

/-- The conversion of one Mocha `failures` entry. -/
def mochaFailCase (t : MochaTest) : TestCase :=
  let title := pyOrS t.fullTitle (pyOrS t.title "unknown")
  let msg := pyOrS t.err.message (pyOrS t.err.stack (pyOrS (some t.err.reprText) "Test failed"))
  { name := title, status := "failed", duration := t.duration.getD 0,
    description := title, error := some msg }

/-- The conversion of one Mocha `pending` entry: a pending/skipped test is
recorded as failed with a fixed error message. -/
def mochaPendingCase (t : MochaTest) : TestCase :=
  let title := pyOrS t.fullTitle (pyOrS t.title "unknown")
  { name := title, status := "failed", duration := 0,
    description := title, error := some "Test was pending/skipped" }

/-- `_mocha_json_to_tests(data)` (docker_executor.py lines 1102–1134). -/
def _mocha_json_to_tests (data : MochaData) : List TestCase :=
  data.passes.map mochaPassCase ++ data.failures.map mochaFailCase
    ++ data.pending.map mochaPendingCase

/-- `_parse_jest_json(raw)` (docker_executor.py lines 1021–1041): locate the
`"numFailedTestSuites"` (or `"testResults"`) key, back up to the opening
brace, and `json.loads` from there. -/
def _parse_jest_json (loads : String → Option JestData) (raw : String) :
    Option JestData :=
  let idx := match pyFind raw "\"numFailedTestSuites\"" with
    | some i => some i
    | none => pyFind raw "\"testResults\""
  match idx with
  | none => none
  | some i =>
    match listRfindPat ['{'] (raw.data.take i) with
    | none => none
    | some b => loads (String.mk (raw.data.drop b))

/-- `_parse_mocha_json(raw)` (docker_executor.py lines 1065–1099): first try
the `===MOCHA_JSON_START===`/`===MOCHA_JSON_END===` delimited block (using
`rfind` for both markers, requiring the end after the start and a blob other
than empty or `"{}"`), then fall back to scanning for the `"stats"` key and
raw-decoding from the preceding brace. -/
def _parse_mocha_json (loads rawDecode : String → Option MochaData)
    (raw : String) : Option MochaData :=
  let startMarker := "===MOCHA_JSON_START==="
  let endMarker := "===MOCHA_JSON_END==="
  let fast : Option MochaData :=
    match pyRfind raw startMarker, pyRfind raw endMarker with
    | some si, some ei =>
      if si < ei then
        let blob := pyStrip (pySlice raw (si + startMarker.length) ei)
        if blob ≠ "" ∧ blob ≠ "\x7b\x7d" then loads blob else none
      else none
    | _, _ => none
  match fast with
  | some d => some d
  | none =>
    match pyFind raw "\"stats\"" with
    | none => none
    | some i =>
      match listRfindPat ['{'] (raw.data.take i) with
      | none => none
      | some b => rawDecode (String.mk (raw.data.drop b))

/-- `re.match(r'[glyphs]\s+(.+)', line)`: the line starts with one of the
glyph characters followed by at least one whitespace character and at least
one further character; the returned text is the rest of the line after the
whitespace run (equal, after the caller's `.strip()`, to the regex group). -/
def glyphMatchName (glyphs : List Char) : List Char → Option (List Char)
  | c :: r0 :: rest =>
    if glyphs.contains c && isPySpace r0 then some ((r0 :: rest).dropWhile isPySpace)
    else none
  | _ => none

/-- Strip a trailing `\s+\(\d+\s*ms\)` (the optional duration suffix of the
Jest verbose-text regex) from a line remainder, when present and preceded by
at least one name character. -/
def stripMsSuffix (s : List Char) : List Char :=
  match s.reverse with
  | ')' :: r1 =>
    match matchLit ['s', 'm'] r1 with
    | some r2 =>
      let r3 := r2.dropWhile isPySpace
      let digits := r3.takeWhile Char.isDigit
      if digits ≠ [] then
        match r3.dropWhile Char.isDigit with
        | '(' :: r4 =>
          let r5 := r4.dropWhile isPySpace
          if r4 ≠ r5 ∧ r5 ≠ [] then r5.reverse else s
        | _ => s
      else s
    | none => s
  | _ => s

/-- `re.search(r'\((\d+)\s*ms\)', s)`: the first parenthesised
`(N ms)` duration in the line, as a number. -/
def findMsDuration : List Char → Option Nat
  | [] => none
  | c :: rest =>
    if c = '(' then
      let digits := rest.takeWhile Char.isDigit
      if digits ≠ [] then
        let r2 := (rest.dropWhile Char.isDigit).dropWhile isPySpace
        match matchLit ['m', 's', ')'] r2 with
        | some _ => some (digitsToNat digits)
        | none => findMsDuration rest
      else findMsDuration rest
    else findMsDuration rest

/-- `_parse_jest_text(raw)` (docker_executor.py lines 1178–1199): one
`TestCase` per glyph-prefixed line of the verbose output. -/
def _parse_jest_text (raw : String) : List TestCase :=
  (pySplitlines raw).filterMap (fun line =>
    let stripped := pyStrip line
    let dur := (findMsDuration stripped.data).getD 0
    match glyphMatchName ['✓', '✔', '√'] stripped.data with
    | some g =>
      let name := pyStrip (String.mk (stripMsSuffix g))
      some { name := name, status := "passed", duration := dur,
             description := name, error := none }
    | none =>
      match glyphMatchName ['✕', '×', '✗', '●'] stripped.data with
      | some g =>
        let name := pyStrip (String.mk (stripMsSuffix g))
        some { name := name, status := "failed", duration := dur,
               description := name, error := some "See output for details" }
      | none => none)

/-- Does a line continue a Jasmine failure's indented error block? -/
def jasmineErrLine (l : String) : Bool :=
  pyStartsWith l "  " || pyStartsWith l "\t"

/-- The index-driven loop of `_parse_jasmine_text`, with fuel equal to the
number of remaining lines (each iteration consumes at least one line). -/
def jasmineGo : Nat → List String → List TestCase
  | 0, _ => []
  | _ + 1, [] => []
  | fuel + 1, line :: rest =>
    let stripped := pyStrip line
    match glyphMatchName ['✓', '✔', '√'] stripped.data with
    | some g =>
      let name := pyStrip (String.mk g)
      { name := name, status := "passed", duration := 0,
        description := name, error := none } :: jasmineGo fuel rest
    | none =>
      match glyphMatchName ['✗', '✘', '×'] stripped.data with
      | some g =>
        let name := pyStrip (String.mk g)
        let errLines := rest.takeWhile jasmineErrLine
        let rest2 := rest.dropWhile jasmineErrLine
        let error := if errLines = [] then "Test failed"
                     else joinLines (errLines.map pyStrip)
        { name := name, status := "failed", duration := 0,
          description := name, error := some error } :: jasmineGo fuel rest2
      | none => jasmineGo fuel rest

/-- `_parse_jasmine_text(raw)` (docker_executor.py lines 1137–1175). -/
def _parse_jasmine_text (raw : String) : List TestCase :=
  let lines := pySplitlines raw
  jasmineGo lines.length lines

/-- Python truthiness of an optional string (`None` and `""` are falsy). -/
def pyTruthy (o : Option String) : Bool :=
  match o with
  | some e => e ≠ ""
  | none => false

/-- `_build_js_test_results(tests)` (docker_executor.py lines 1202–1218). -/
def _build_js_test_results (tests : List TestCase) : TestSummary :=
  let total := tests.length
  let passed := (tests.filter (fun t => t.status = "passed")).length
  let failed := total - passed
  let failures := tests.filterMap (fun t =>
    if t.status = "failed" ∧ pyTruthy t.error = true then
      some (t.name ++ ": " ++ t.error.getD "")
    else none)
  { total := total, passed := (passed : Int), failed := failed, skipped := 0,
    failures := failures, tests := tests }

/-- The success determination of the JavaScript pipeline (docker_executor.py
lines 1549–1551): `success = returncode == 0`, overridden by
`failed == 0` whenever any structured tests were parsed. -/
def jsDetermineSuccess (rc : Int) (trj : TestSummary) : Bool :=
  let s := rc == 0
  if trj.total > 0 then trj.failed == 0 else s

/-- The `config` dict as consumed by the JavaScript pipeline. -/
structure JsConfig where
  framework : Option String
  deriving Repr, DecidableEq

/-- Framework detection of `execute_javascript_tests` (docker_executor.py
lines 1287–1312), returning `(is_jest, is_mocha, is_jasmine)`. -/
def detectJsFramework (config : JsConfig) (testCode : String) : Bool × Bool × Bool :=
  let cfg := pyLower (config.framework.getD "")
  if cfg = "jest" ∨ cfg = "mocha" ∨ cfg = "jasmine" then
    (cfg = "jest", cfg = "mocha", cfg = "jasmine")
  else
    let testLower := pyLower testCode
    let isJasmine := strContains testLower "jasmine"
    let hasChaiStyle := [".to.equal", ".to.be", ".to.have", ".to.throw",
      ".to.include", ".to.deep"].any (fun p => strContains testLower p)
    let isMocha := (!isJasmine) &&
      (strContains testLower "mocha" || strContains testLower "chai" || hasChaiStyle ||
        (strContains testCode "describe(" && strContains testCode "it(" &&
          !(strContains testLower "jest.") &&
          !([".tobe(", ".toequal(", ".tomatch("].any (fun p => strContains testLower p))))
    let isJest := !isJasmine && !isMocha
    (isJest, isMocha, isJasmine)

/-- `execute_javascript_tests` (docker_executor.py lines 1270–1566): the
framework detection, output parsing, and result assembly of the JavaScript /
TypeScript pipeline.  The file-materialisation and `docker run` steps are
side effects summarised by the `run` outcome; the second component of the
result records the container names passed to `docker kill`. -/
def execute_javascript_tests (loadsJest : String → Option JestData)
    (loadsMocha rawDecodeMocha : String → Option MochaData)
    (test_code : String) (config : JsConfig)
    (run : RunOutcome) (container_name : String) (timeout : Nat) :
    ExecResult × List String :=
  match run with
  | .completed rc stdout stderr =>
    let fw := detectJsFramework config test_code
    let raw := stdout ++ "\n" ++ stderr
    let parsed : List TestCase :=
      if fw.1 then
        let p1 :=
          match pyFind raw "===JEST_JSON_START===", pyFind raw "===JEST_JSON_END===" with
          | some si, some ei =>
            let blob := pyStrip (pySlice raw (si + "===JEST_JSON_START===".length) ei)
            match loadsJest blob with
            | some d => _jest_json_to_tests d
            | none => []
          | _, _ => []
        let p2 := if p1 = [] then
            match _parse_jest_json loadsJest raw with
            | some d => _jest_json_to_tests d
            | none => []
          else p1
        if p2 = [] then _parse_jest_text raw else p2
      else if fw.2.1 then
        let p1 := match _parse_mocha_json loadsMocha rawDecodeMocha raw with
          | some d => _mocha_json_to_tests d
          | none => []
        let p2 := if p1 = [] then _parse_jest_text raw else p1
        if p2 = [] then
          let hasMochaStats := strContains raw "\"stats\"" || strContains raw "\"passes\""
          if !hasMochaStats then
            let lines := pySplitlines raw
            let errorLines := lines.filter (fun l =>
              pyStrip l ≠ "" ∧ pyStartsWith l "> " = false ∧
                strContains l "MOCHA_JSON" = false)
            let errorDetail :=
              let d := pyStrip (joinLines (errorLines.take 30))
              if d = "" then "Test suite failed to run" else d
            [{ name := "Test suite failed to run", status := "failed", duration := 0,
               description := "The test suite could not be executed.",
               error := some (pyTake errorDetail 2000) }]
          else p2
        else p2
      else
        let p1 := _parse_jasmine_text raw
        if p1 = [] then _parse_jest_text raw else p1
    let trj := _build_js_test_results parsed
    ({ success := jsDetermineSuccess rc trj, exit_code := rc, output := stdout,
       errors := stderr, xml_reports := [], test_results_json := some trj }, [])
  | .timedOut =>
    ({ success := false, exit_code := -1, output := "",
       errors := "Execution timed out after " ++ toString timeout ++ "s",
       xml_reports := [], test_results_json := none }, [container_name])
  | .raised msg =>
    ({ success := false, exit_code := -1, output := "", errors := msg,
       xml_reports := [], test_results_json := none }, [])

/-! ## Java pipeline (`execute_java_tests`, docker_executor.py lines 817–1013)

The Surefire XML reports are filesystem artifacts read after the container
run; they are modelled as part of the run outcome: `none` when
`os.path.exists(surefire_dir)` is false (e.g. a compile failure before any
test ran), otherwise the list of reports that parsed successfully (a file
whose `ET.parse` raises is skipped by the per-file `except`). -/

/-- A `<failure>`/`<error>` element of a Surefire `<testcase>`: the
`message` attribute and the node text, either possibly absent. -/
structure JavaFailureElem where
  message : Option String
  text : Option String
  deriving Repr, DecidableEq

/-- One `<testcase>` element of a Surefire report. -/
structure SurefireCase where
  name : Option String
  classname : Option String
  failure : Option JavaFailureElem
  errorElem : Option JavaFailureElem
  deriving Repr, DecidableEq

/-- One parsed Surefire XML report: the root's declared counters, its
testcases, and its serialised text (appended to `xml_reports`). -/
structure SurefireReport where
  raw : String
  tests : Nat
  failures : Nat
  errors : Nat
  skipped : Nat
  testcases : List SurefireCase
  deriving Repr, DecidableEq

/-- Python's rendering of a possibly-`None` attribute inside an f-string. -/
def strOfPyOpt (o : Option String) : String := o.getD "None"

/-- The failure strings extracted from one report's testcases
(`failure` checked before `error`, with the source's fallback messages). -/
def surefireFailureEntries (r : SurefireReport) : List String :=
  r.testcases.filterMap (fun tc =>
    match tc.failure with
    | some f => some (strOfPyOpt tc.classname ++ "." ++ strOfPyOpt tc.name ++ ": " ++
        pyOrS f.message (pyOrS f.text "Assertion Failed"))
    | none =>
      match tc.errorElem with
      | some e => some (strOfPyOpt tc.classname ++ "." ++ strOfPyOpt tc.name ++ ": " ++
        pyOrS e.message (pyOrS e.text "Error"))
      | none => none)

/-- The accumulation loop over the parsed Surefire reports
(docker_executor.py lines 961–995), before `passed` is computed. -/
def javaSummarize (reports : List SurefireReport) : TestSummary :=
  { total := (reports.map (fun r => r.tests)).sum
    passed := 0
    failed := (reports.map (fun r => r.failures + r.errors)).sum
    skipped := (reports.map (fun r => r.skipped)).sum
    failures := (reports.map surefireFailureEntries).flatten
    tests := [] }

/-- The run outcome of the Java pipeline's container call, carrying the
Surefire report directory contents for a completed run. -/
inductive JavaRunOutcome where
  | completed (rc : Int) (stdout stderr : String)
      (surefire : Option (List SurefireReport))
  | timedOut
  | raised (msg : String)
  deriving Repr, DecidableEq

/-- `execute_java_tests` (docker_executor.py lines 817–1013): parse the
Surefire reports (skipped entirely when the report directory is absent),
compute `passed = total - failed - skipped`, and determine success from the
exit code and the parsed failure count; the second component records the
container names passed to `docker kill`. -/
def execute_java_tests (run : JavaRunOutcome) (container_name : String)
    (timeout : Nat) : ExecResult × List String :=
  match run with
  | .completed rc stdout stderr surefire =>
    let summary0 := match surefire with
      | none => ({ total := 0, passed := 0, failed := 0, skipped := 0,
                   failures := [], tests := [] } : TestSummary)
      | some reports => javaSummarize reports
    let summary := { summary0 with
      passed := (summary0.total : Int) - (summary0.failed : Int) - (summary0.skipped : Int) }
    let success := (rc == 0) && (if summary.total > 0 then summary.failed == 0 else true)
    ({ success := success, exit_code := rc, output := stdout, errors := stderr,
       xml_reports := (match surefire with
         | none => []
         | some reports => reports.map (fun r => r.raw)),
       test_results_json := some summary }, [])
  | .timedOut =>
    ({ success := false, exit_code := -1, output := "",
       errors := "Execution timed out after " ++ toString timeout ++ "s",
       xml_reports := [], test_results_json := none }, [container_name])
  | .raised msg =>
    ({ success := false, exit_code := -1, output := "", errors := msg,
       xml_reports := [], test_results_json := none }, [])

/-! ## Python pipeline branch and orchestrator cleanup
(`execute_tests_in_docker`, docker_executor.py lines 1572–1763) -/

/-- The Python branch of `execute_tests_in_docker` (docker_executor.py lines
1632–1756): the result assembly after the container run, and the
timeout/exception arms shared with the other pipelines. -/
def execute_python_branch (run : RunOutcome) (container_name : String)
    (timeout : Nat) : ExecResult × List String :=
  match run with
  | .completed rc stdout stderr =>
    ({ success := rc == 0, exit_code := rc, output := stdout, errors := stderr,
       xml_reports := [], test_results_json := none }, [])
  | .timedOut =>
    ({ success := false, exit_code := -1, output := "",
       errors := "Execution timed out after " ++ toString timeout ++ "s",
       xml_reports := [], test_results_json := none }, [container_name])
  | .raised msg =>
    ({ success := false, exit_code := -1, output := "", errors := msg,
       xml_reports := [], test_results_json := none }, [])

/-- How one call to `execute_tests_in_docker` leaves its `try` block: an
early return from the Java or JavaScript pipeline, a normal Python-path
return, a `subprocess.TimeoutExpired`, or any other exception. -/
inductive PipelineOutcome where
  | javaReturn (res : ExecResult)
  | jsReturn (res : ExecResult)
  | pythonReturn (rc : Int) (stdout stderr : String)
  | timedOut (timeout : Nat)
  | raised (msg : String)

/-- `shutil.rmtree(temp_dir)`: recursive removal of the job directory from
the modelled filesystem (a list of existing directories). -/
def removeDirAll (fs : List String) (d : String) : List String :=
  fs.filter (fun x => x ≠ d)

/-- The `try/finally` skeleton of `execute_tests_in_docker`
(docker_executor.py lines 1588–1763): the job directory is created first
(`os.makedirs`/`tempfile.mkdtemp`); every exit path of the `try` block
produces a result; the `finally` block calls `shutil.rmtree` whenever the
directory still exists, inside a `try/except Exception` that logs and
swallows a removal failure (lines 1759–1763), leaving the directory in
place on that path.  `rmtreeRaises` models whether the `shutil.rmtree` call
raises.  Returns the result, the final filesystem, and the list of
directories `shutil.rmtree` was invoked on. -/
def execute_tests_in_docker_cleanup (fs0 : List String) (tempDir : String)
    (outcome : PipelineOutcome) (rmtreeRaises : Bool) :
    ExecResult × List String × List String :=
  let fs1 := tempDir :: fs0
  let result : ExecResult :=
    match outcome with
    | .javaReturn r => r
    | .jsReturn r => r
    | .pythonReturn rc out err =>
      { success := rc == 0, exit_code := rc, output := out, errors := err,
        xml_reports := [], test_results_json := none }
    | .timedOut t =>
      { success := false, exit_code := -1, output := "",
        errors := "Execution timed out after " ++ toString t ++ "s",
        xml_reports := [], test_results_json := none }
    | .raised m =>
      { success := false, exit_code := -1, output := "", errors := m,
        xml_reports := [], test_results_json := none }
  if fs1.contains tempDir then
    if rmtreeRaises then (result, fs1, [tempDir])
    else (result, removeDirAll fs1 tempDir, [tempDir])
  else (result, fs1, [])

/-! ## Pytest output parsing (`parse_pytest_output`,
routes/tests_routes.py lines 12–50) -/

/-- Case-insensitive literal match keeping the matched original text. -/
def matchCIKeep (pat s : List Char) : Option (List Char × List Char) :=
  match matchCI pat s with
  | some rest => some (s.take pat.length, rest)
  | none => none

/-- `re.search`: try the head matcher at every position, leftmost first. -/
def scanFor {α : Type} (m : List Char → Option α) : List Char → Option α
  | [] => m []
  | c :: rest =>
    match m (c :: rest) with
    | some v => some v
    | none => scanFor m rest

/-- The `(PASSED|FAILED|ERROR)` alternation (case-insensitive); returns
whether the keyword was `PASSED`. -/
def matchStatusKeyword (s : List Char) : Option Bool :=
  match matchCI "PASSED".data s with
  | some _ => some true
  | none =>
    match matchCI "FAILED".data s with
    | some _ => some false
    | none =>
      match matchCI "ERROR".data s with
      | some _ => some false
      | none => none

/-- The primary per-line regex of `parse_pytest_output`:
`(?:test\.py|test_\w+\.py)::(?:\w+::)?(test_\w+)\s+(PASSED|FAILED|ERROR)`
anchored at the head of the given suffix (IGNORECASE).  Returns the matched
test name (original casing) and whether the status keyword was `PASSED`. -/
def pytestPrimaryAt (s : List Char) : Option (List Char × Bool) :=
  let afterFile : Option (List Char) :=
    match matchCI "test.py".data s with
    | some r => some r
    | none =>
      match matchCI "test_".data s with
      | some r1 =>
        match matchPlus isWordChar r1 with
        | some (_, r2) => matchCI ".py".data r2
        | none => none
      | none => none
  match afterFile with
  | none => none
  | some r =>
    match matchLit "::".data r with
    | none => none
    | some r1 =>
      let r2 :=
        match matchPlus isWordChar r1 with
        | some (_, ra) =>
          match matchLit "::".data ra with
          | some rb => rb
          | none => r1
        | none => r1
      match matchCIKeep "test_".data r2 with
      | none => none
      | some (g1, r3) =>
        match matchPlus isWordChar r3 with
        | none => none
        | some (g2, r4) =>
          match matchPlus isPySpace r4 with
          | none => none
          | some (_, r5) =>
            match matchStatusKeyword r5 with
            | some passed => some (g1 ++ g2, passed)
            | none => none

/-- The fallback per-line regex `(test_\w+)\s+(PASSED|FAILED|ERROR)`
anchored at the head of the given suffix (IGNORECASE). -/
def pytestSecondaryAt (s : List Char) : Option (List Char × Bool) :=
  match matchCIKeep "test_".data s with
  | none => none
  | some (g1, r1) =>
    match matchPlus isWordChar r1 with
    | none => none
    | some (g2, r2) =>
      match matchPlus isPySpace r2 with
      | none => none
      | some (_, r3) =>
        match matchStatusKeyword r3 with
        | some passed => some (g1 ++ g2, passed)
        | none => none

/-- The `TestCase` dict built for a matched pytest output line. -/
def pytestCaseOf (nameCh : List Char) (isPassed : Bool) : TestCase :=
  let name := String.mk nameCh
  { name := name
    status := if isPassed then "passed" else "failed"
    duration := 0
    description := pyReplace (pyReplace name "test_" "") "_" " "
    error := if isPassed then none else some "See output for details" }

/-- The summary regex `(\d+)\s+passed(?:,\s*(\d+)\s+failed)?` anchored at
the head of the given suffix (IGNORECASE): passed count and optional failed
count. -/
def summaryAt (s : List Char) : Option (Nat × Option Nat) :=
  match matchPlus Char.isDigit s with
  | none => none
  | some (digits, r1) =>
    match matchPlus isPySpace r1 with
    | none => none
    | some (_, r2) =>
      match matchCI "passed".data r2 with
      | none => none
      | some r3 =>
        let failedPart : Option Nat :=
          match r3 with
          | ',' :: r4 =>
            let r5 := r4.dropWhile isPySpace
            match matchPlus Char.isDigit r5 with
            | none => none
            | some (ds2, r6) =>
              match matchPlus isPySpace r6 with
              | none => none
              | some (_, r7) =>
                match matchCI "failed".data r7 with
                | some _ => some (digitsToNat ds2)
                | none => none
          | _ => none
        some (digitsToNat digits, failedPart)

/-- The synthetic `test_case_i` entries generated from the summary line. -/
def summaryCases (passedCount failedCount : Nat) : List TestCase :=
  (List.range passedCount).map (fun i =>
    { name := "test_case_" ++ toString (i + 1), status := "passed", duration := 0,
      description := "Test case " ++ toString (i + 1), error := none }) ++
  (List.range failedCount).map (fun i =>
    { name := "test_case_" ++ toString (passedCount + i + 1), status := "failed",
      duration := 0, description := "Test case " ++ toString (passedCount + i + 1),
      error := some "See output for details" })

/-- Python `output.split('\n')` (keeps a trailing empty piece, unlike
`splitlines`). -/
def splitNlCh : List Char → List (List Char)
  | [] => [[]]
  | c :: rest =>
    let r := splitNlCh rest
    if c = '\n' then [] :: r
    else
      match r with
      | [] => [[c]]
      | l :: ls => (c :: l) :: ls

/-- `parse_pytest_output(output, docker_data)`
(routes/tests_routes.py lines 12–50): per-line regex extraction, then the
summary-line fallback, then the final synthetic `test_execution` entry whose
status is decided by `docker_data['exit_code'] == 0`. -/
def parse_pytest_output (output : String) (exitCode : Int) : List TestCase :=
  let tests1 := (splitNlCh output.data).filterMap (fun line =>
    match scanFor pytestPrimaryAt line with
    | some (n, p) => some (pytestCaseOf n p)
    | none =>
      match scanFor pytestSecondaryAt line with
      | some (n, p) => some (pytestCaseOf n p)
      | none => none)
  let tests2 := if tests1 = [] then
      match scanFor summaryAt output.data with
      | some (p, f) => summaryCases p (f.getD 0)
      | none => []
    else tests1
  if tests2 = [] then
    [{ name := "test_execution",
       status := if exitCode == 0 then "passed" else "failed",
       duration := 0, description := "Test execution",
       error := if exitCode == 0 then none else some "Check raw output" }]
  else tests2

/-! ## Claims about success determination (C1, C2) -/

/-- The JavaScript success rule in `↔` form. -/
theorem jsDetermineSuccess_iff (rc : Int) (trj : TestSummary) :
    jsDetermineSuccess rc trj = true ↔
      (if 0 < trj.total then trj.failed = 0 else rc = 0) := by
  unfold jsDetermineSuccess
  by_cases h : trj.total > 0 <;> simp [h]

/-- Claim C1 (amended): the invariant "`success` is true iff the exit code
is zero and, when any structured result exists, the structured parse reports
zero failures (an empty structured result with zero exit code is success)"
holds on the Java and Python pipelines; on the JavaScript/TypeScript
pipeline, however, whenever any structured tests were parsed, `success` is
decided solely by `failed == 0` and the exit code is ignored (see the
counterexample `js_success_ignores_exit_code`); only with an empty
structured result does the JS pipeline fall back to the exit code. -/
theorem success_invariant_pipelines :
    (∀ (rc : Int) (out err c : String) (t : Nat)
       (sf : Option (List SurefireReport)),
      ∃ trj, (execute_java_tests (.completed rc out err sf) c t).1.test_results_json
          = some trj ∧
        ((execute_java_tests (.completed rc out err sf) c t).1.success = true ↔
          (rc = 0 ∧ (0 < trj.total → trj.failed = 0)))) ∧
    (∀ (lj : String → Option JestData) (lm rdm : String → Option MochaData)
       (tc : String) (cfg : JsConfig) (rc : Int) (out err c : String) (t : Nat),
      ∃ trj, (execute_javascript_tests lj lm rdm tc cfg
          (.completed rc out err) c t).1.test_results_json = some trj ∧
        ((execute_javascript_tests lj lm rdm tc cfg
            (.completed rc out err) c t).1.success = true ↔
          (if 0 < trj.total then trj.failed = 0 else rc = 0))) ∧
    (∀ (rc : Int) (out err c : String) (t : Nat),
      (execute_python_branch (.completed rc out err) c t).1.test_results_json = none ∧
        ((execute_python_branch (.completed rc out err) c t).1.success = true ↔
          rc = 0)) := by
  refine ⟨?_, ?_, ?_⟩
  · intro rc out err c t sf
    refine ⟨_, rfl, ?_⟩
    show ((rc == 0) && _) = true ↔ _
    by_cases h : (0 : Nat) <
        (match sf with
          | none => ({ total := 0, passed := 0, failed := 0, skipped := 0,
                       failures := [], tests := [] } : TestSummary)
          | some reports => javaSummarize reports).total <;>
      simp [execute_java_tests, h]
  · intro lj lm rdm tc cfg rc out err c t
    exact ⟨_, rfl, jsDetermineSuccess_iff rc _⟩
  · intro rc out err c t
    exact ⟨rfl, by simp [execute_python_branch]⟩

/-- The concrete Jest JSON blob of the C1 counterexample (one passing
test). -/
def c1JestBlob : String :=
  "\x7b\"testResults\":[\x7b\"testResults\":[\x7b\"title\":\"t\",\"status\":\"passed\"\x7d]\x7d]\x7d"

/-- The single passing assertion inside `c1JestBlob`. -/
def c1JestAssertion : JestAssertion :=
  { fullName := none, title := some "t", status := "passed",
    duration := none, failureMessages := [] }

/-- The `json.loads` result for `c1JestBlob`. -/
def c1JestData : JestData :=
  { testResults := [{ testResults := [c1JestAssertion] }] }

/-- `json.loads` oracle of the C1 counterexample: parses exactly the blob. -/
def c1Loads : String → Option JestData :=
  fun s => if s = c1JestBlob then some c1JestData else none

/-- Mocha `json.loads` oracle that never parses (no Mocha JSON present). -/
def noMochaLoads : String → Option MochaData := fun _ => none

set_option maxRecDepth 8000 in
/-- Claim C1, counterexample to the claim as stated: on the JS pipeline a
run whose exit code is 1 but whose Jest JSON reports one passing test yields
`success = true`, so success is **not** conditioned on the exit code when
structured results exist. -/
theorem js_success_ignores_exit_code :
    ((execute_javascript_tests c1Loads noMochaLoads noMochaLoads "" ⟨none⟩
        (.completed 1 ("===JEST_JSON_START===" ++ c1JestBlob ++ "===JEST_JSON_END===") "")
        "genai-test-c1" 120).1.success = true) ∧
    ((execute_javascript_tests c1Loads noMochaLoads noMochaLoads "" ⟨none⟩
        (.completed 1 ("===JEST_JSON_START===" ++ c1JestBlob ++ "===JEST_JSON_END===") "")
        "genai-test-c1" 120).1.exit_code = 1) ∧
    ((1 : Int) ≠ 0) := by
  refine ⟨by decide, by decide, by decide⟩

/-- Claim C2 (amended): on the Java pipeline, when the Surefire report
directory is absent after the container run, **no** synthetic failing
TestCase is produced — the structured summary stays all-zero with empty
failure and test lists and no XML reports — and `success` is decided solely
by the exit code (`success = true` iff the exit code is 0), not forced to
false. -/
theorem java_absent_reports_behavior (rc : Int) (out err c : String) (t : Nat) :
    (execute_java_tests (.completed rc out err none) c t).1.test_results_json
      = some { total := 0, passed := 0, failed := 0, skipped := 0,
               failures := [], tests := [] } ∧
    (execute_java_tests (.completed rc out err none) c t).1.xml_reports = [] ∧
    ((execute_java_tests (.completed rc out err none) c t).1.success = true ↔
      rc = 0) := by
  refine ⟨rfl, rfl, ?_⟩
  simp [execute_java_tests]

/-- Claim C2, counterexample to the claim as stated: with the report
directory absent (e.g. a compile failure whose diagnostics went to stderr)
and exit code 0, the result has `success = true` and contains no failing
TestCase at all — not `success = false` with one synthetic stderr-carrying
case. -/
theorem java_absent_reports_counterexample :
    ((execute_java_tests (.completed 0 "" "error: cannot find symbol" none)
        "genai-test-c2" 120).1.success = true) ∧
    ((execute_java_tests (.completed 0 "" "error: cannot find symbol" none)
        "genai-test-c2" 120).1.test_results_json.map (fun s => s.failures))
      = some [] ∧
    ((execute_java_tests (.completed 0 "" "error: cannot find symbol" none)
        "genai-test-c2" 120).1.test_results_json.map (fun s => s.tests))
      = some [] := by
  refine ⟨by decide, by decide, by decide⟩

/-! ## Claim C3: synthetic-failure fallback totality -/

/-- The "`if` nothing parsed, synthesize one entry" shape shared by the
pytest parser and the Mocha branch always yields a non-empty list. -/
theorem ne_nil_of_ite_synth (l : List TestCase) (c : TestCase) :
    (if l = [] then [c] else l) ≠ [] := by
  split
  · simp
  · assumption

/-- Claim C3 (amended): the synthetic-failure guarantee holds for the pytest
route parser (which always returns at least one TestCase, whatever the
output and exit code) and for the Mocha branch of the JavaScript pipeline
whenever the raw output contains no Mocha stats markers; the Jest and
Jasmine branches, by contrast, can return an empty structured list for a
failed run with non-empty output (see `jest_failed_run_empty_tests`). -/
theorem synthetic_fallback_pytest_and_mocha :
    (∀ (output : String) (ec : Int), parse_pytest_output output ec ≠ []) ∧
    (∀ (lj : String → Option JestData) (lm rdm : String → Option MochaData)
       (tc : String) (cfg : JsConfig) (rc : Int) (out err c : String) (t : Nat),
      detectJsFramework cfg tc = (false, true, false) →
      strContains (out ++ "\n" ++ err) "\"stats\"" = false →
      strContains (out ++ "\n" ++ err) "\"passes\"" = false →
      ∃ trj, (execute_javascript_tests lj lm rdm tc cfg
          (.completed rc out err) c t).1.test_results_json = some trj ∧
        trj.tests ≠ []) := by
  constructor
  · intro output ec
    unfold parse_pytest_output
    apply ne_nil_of_ite_synth
  · intro lj lm rdm tc cfg rc out err c t hfw hs1 hs2
    refine ⟨_, rfl, ?_⟩
    simp only [execute_javascript_tests, _build_js_test_results, hfw, hs1, hs2]
    apply ne_nil_of_ite_synth

/-- Claim C3, counterexample input oracle: no JSON parses. -/
def noJestLoads : String → Option JestData := fun _ => none

set_option maxRecDepth 8000 in
/-- Claim C3, counterexample to the claim as stated: on the Jest branch, a
failed run (exit code 1) with non-empty raw output that contains neither a
Jest JSON blob nor any glyph-prefixed test line produces an **empty**
structured test list — no synthetic failing TestCase is synthesized. -/
theorem jest_failed_run_empty_tests :
    ((execute_javascript_tests noJestLoads noMochaLoads noMochaLoads "" ⟨none⟩
        (.completed 1 "npm ERR! boom" "") "genai-test-c3" 120).1.test_results_json.map
        (fun s => s.tests)) = some [] ∧
    ((execute_javascript_tests noJestLoads noMochaLoads noMochaLoads "" ⟨none⟩
        (.completed 1 "npm ERR! boom" "") "genai-test-c3" 120).1.exit_code = 1) ∧
    ("npm ERR! boom" : String) ≠ "" := by
  refine ⟨by decide, by decide, by decide⟩

set_option maxRecDepth 8000 in
/-- Claim C3, witness: the pytest parser on arbitrary garbage, and the Mocha
branch on a stats-free failed run, both yield a non-empty structured list. -/
theorem synthetic_fallback_witness :
    parse_pytest_output "garbage" 1 ≠ [] ∧
    (∃ trj, (execute_javascript_tests noJestLoads noMochaLoads noMochaLoads ""
        ⟨some "mocha"⟩ (.completed 1 "boom" "") "genai-test-c3w" 120).1.test_results_json
        = some trj ∧ trj.tests ≠ []) := by
  refine ⟨synthetic_fallback_pytest_and_mocha.1 "garbage" 1, ?_⟩
  exact synthetic_fallback_pytest_and_mocha.2 noJestLoads noMochaLoads noMochaLoads
    "" ⟨some "mocha"⟩ 1 "boom" "" "genai-test-c3w" 120 (by decide) (by decide) (by decide)

/-! ## Claim C5: timeout kill semantics -/

/-- Claim C5 (confirmed): whenever the container wait times out, each of the
three pipelines issues a forced kill addressed to the job's container name
(the only kill ever recorded) and returns a synthetic failure result with
`success = false`, exit code −1 (negative), and an error message naming the
timeout. -/
theorem timeout_forced_kill (c : String) (t : Nat)
    (lj : String → Option JestData) (lm rdm : String → Option MochaData)
    (tc : String) (cfg : JsConfig) :
    execute_java_tests .timedOut c t
      = ({ success := false, exit_code := -1, output := "",
           errors := "Execution timed out after " ++ toString t ++ "s",
           xml_reports := [], test_results_json := none }, [c]) ∧
    execute_javascript_tests lj lm rdm tc cfg .timedOut c t
      = ({ success := false, exit_code := -1, output := "",
           errors := "Execution timed out after " ++ toString t ++ "s",
           xml_reports := [], test_results_json := none }, [c]) ∧
    execute_python_branch .timedOut c t
      = ({ success := false, exit_code := -1, output := "",
           errors := "Execution timed out after " ++ toString t ++ "s",
           xml_reports := [], test_results_json := none }, [c]) ∧
    (-1 : Int) < 0 :=
  ⟨rfl, rfl, rfl, by norm_num⟩

/-! ## Claim C6: cleanup invariant -/

/-- Claim C6 (amended): on every exit path of `execute_tests_in_docker` —
Java early return, JavaScript early return, Python-path return, timeout, or
exception in any stage — the `finally`-equivalent block **attempts** the
recursive removal of the job's working directory (exactly one `rmtree`
call, addressed to that directory), and whenever the removal succeeds the
directory no longer exists after the call returns.  A removal failure,
however, is caught, logged and swallowed, so the directory is not
guaranteed gone in that case (see `cleanup_rmtree_failure_persists`). -/
theorem cleanup_attempted_every_path :
    (∀ (fs0 : List String) (d : String) (o : PipelineOutcome) (fail : Bool),
      (execute_tests_in_docker_cleanup fs0 d o fail).2.2 = [d]) ∧
    (∀ (fs0 : List String) (d : String) (o : PipelineOutcome),
      d ∉ (execute_tests_in_docker_cleanup fs0 d o false).2.1) := by
  constructor
  · intro fs0 d o fail
    unfold execute_tests_in_docker_cleanup
    have hc : (d :: fs0).contains d = true := by
      simp [List.contains_cons]
    rw [if_pos hc]
    cases fail <;> rfl
  · intro fs0 d o
    unfold execute_tests_in_docker_cleanup
    intro hmem
    have hc : (d :: fs0).contains d = true := by
      simp [List.contains_cons]
    rw [if_pos hc] at hmem
    simp [removeDirAll, List.mem_filter] at hmem

/-- Claim C6, counterexample to the claim as stated: when the
`shutil.rmtree` call in the `finally` block raises, the surrounding
`except Exception` swallows the failure, and the job's working directory
still exists after `execute_tests_in_docker` returns. -/
theorem cleanup_rmtree_failure_persists :
    "genai_exec_job" ∈ (execute_tests_in_docker_cleanup [] "genai_exec_job"
      (.pythonReturn 0 "" "") true).2.1 := by
  decide

/-! ## Claim C10: non-passed statuses map to failed -/

/-- Claim C10 (confirmed): the JavaScript-path structured parsers map every
non-passed per-test outcome to status `"failed"` — a Mocha pending/skipped
test becomes a failed TestCase with error `"Test was pending/skipped"` (and
appears in the parsed list), and any Jest status other than `"passed"`
becomes `"failed"` — and a parsed run whose tests are all non-passed yields
`success = false` whatever the exit code. -/
theorem nonpassed_mapped_failed :
    (∀ t : MochaTest, (mochaPendingCase t).status = "failed" ∧
      (mochaPendingCase t).error = some "Test was pending/skipped" ∧
      ∀ d : MochaData, t ∈ d.pending →
        mochaPendingCase t ∈ _mocha_json_to_tests d) ∧
    (∀ a : JestAssertion, a.status ≠ "passed" →
      (jestCaseOfAssertion a).status = "failed") ∧
    (∀ (tests : List TestCase) (rc : Int), tests ≠ [] →
      (∀ t ∈ tests, t.status ≠ "passed") →
      jsDetermineSuccess rc (_build_js_test_results tests) = false) := by
  refine ⟨?_, ?_, ?_⟩
  · intro t
    refine ⟨rfl, rfl, ?_⟩
    intro d hd
    unfold _mocha_json_to_tests
    exact List.mem_append.2 (Or.inr (List.mem_map.2 ⟨t, hd, rfl⟩))
  · intro a ha
    unfold jestCaseOfAssertion
    simp [ha]
  · intro tests rc hne hall
    have hfilter : tests.filter (fun t => t.status = "passed") = [] := by
      rw [List.filter_eq_nil_iff]
      intro t ht
      simpa using hall t ht
    have hpos : tests.length ≠ 0 := by
      have := List.length_pos.2 hne
      omega
    unfold jsDetermineSuccess _build_js_test_results
    simp only [hfilter, List.length_nil, Nat.sub_zero]
    rw [if_pos (by omega)]
    simpa using hpos

/-- A concrete Mocha pending entry (the `err` dict rendering as `"{}"`
mirrors `str(err_obj)` for an empty dict). -/
def c10Pending : MochaTest :=
  { fullTitle := some "p1", title := none, duration := none,
    err := { message := none, stack := none, reprText := "\x7b\x7d" } }

/-- A concrete skipped Jest assertion. -/
def c10Skipped : JestAssertion :=
  { fullName := none, title := some "s", status := "skipped",
    duration := none, failureMessages := [] }

/-- A concrete one-pending-test Mocha document. -/
def c10MochaDoc : MochaData :=
  { passes := [], failures := [], pending := [c10Pending] }

/-- Claim C10, witness: a run with a single Mocha pending test parses to one
failed TestCase carrying the pending error, a skipped Jest assertion maps to
failed, and the resulting summary yields `success = false` even with exit
code 0. -/
theorem nonpassed_mapped_failed_witness :
    mochaPendingCase c10Pending ∈ _mocha_json_to_tests c10MochaDoc ∧
    (jestCaseOfAssertion c10Skipped).status = "failed" ∧
    jsDetermineSuccess 0 (_build_js_test_results [mochaPendingCase c10Pending])
      = false := by
  refine ⟨?_, ?_, ?_⟩
  · exact (nonpassed_mapped_failed.1 _).2.2 _ (by decide)
  · exact nonpassed_mapped_failed.2.1 _ (by decide)
  · exact nonpassed_mapped_failed.2.2 _ 0 (by decide) (by decide)

/-! ## Python import rewriting (`_safe_rewrite_imports_to_source` and
step 0 of `_preprocess_python`, docker_executor.py lines 258, 367–389,
515–572)

`ast.parse(source_code)` and `ast.parse(test_code)` are modelled by the
inputs `sourceTopDefs` (the top-level function/class names of the source)
and `testImports` (the `ImportFrom` nodes of the test, `none` for a
`SyntaxError`). -/

/-- `_ALLOWED_REWRITE_MODULES` (docker_executor.py line 258). -/
def _ALLOWED_REWRITE_MODULES : List String :=
  ["app", "main", "your_module", "module", "solution", "program"]

/-- The head match of `from\s+([A-Za-z_]\w*)\s+import`: on success, the
matched module name and the number of characters consumed. -/
def fromImportScan (t : List Char) : Option (List Char × Nat) :=
  match matchLit "from".data t with
  | none => none
  | some r1 =>
    match matchPlus isPySpace r1 with
    | none => none
    | some (ws1, r2) =>
      match r2 with
      | [] => none
      | c0 :: _ =>
        if c0.isAlpha || c0 = '_' then
          match matchPlus isPySpace (r2.dropWhile isWordChar) with
          | none => none
          | some (ws2, r4) =>
            match matchLit "import".data r4 with
            | some _ => some (r2.takeWhile isWordChar,
                4 + ws1.length + (r2.takeWhile isWordChar).length + ws2.length + 6)
            | none => none
        else none

/-- The `repl` closure of `_safe_rewrite_imports_to_source`: an allow-listed
module becomes `from source import`; any other match is emitted unchanged
(`return m.group(0)`). -/
def safeRewriteRepl (t : List Char) : Option (List Char × Nat) :=
  match fromImportScan t with
  | none => none
  | some (mod, k) =>
    some (if String.mk mod ∈ _ALLOWED_REWRITE_MODULES then "from source import".data
          else t.take k, k)

/-- `_safe_rewrite_imports_to_source(test_code)`
(docker_executor.py lines 367–380). -/
def _safe_rewrite_imports_to_source (test : String) : String :=
  pySub safeRewriteRepl test

/-- A successful `fromImportScan` consumes at least one character and the
non-allow-listed replacement is the matched text itself. -/
theorem fromImportScan_pos {t : List Char} {mod : List Char} {k : Nat}
    (h : fromImportScan t = some (mod, k)) : 1 ≤ k := by
  unfold fromImportScan at h
  repeat' split at h
  all_goals try (cases h)
  all_goals omega

/-- Suffix-restricted version of `subGo_id`: a matcher that, on every suffix
of the scanned text, returns the matched text unchanged leaves the text
unchanged. -/
theorem subGo_id_suffix (f : List Char → Option (List Char × Nat)) (s0 : List Char)
    (hf : ∀ t r k, t <:+ s0 → f t = some (r, k) → 1 ≤ k ∧ r = t.take k) :
    ∀ fuel s, s <:+ s0 → s.length ≤ fuel → subGo f fuel s = s := by
  intro fuel
  induction fuel with
  | zero => intro s _ _; rfl
  | succ n ih =>
    intro s hsuf hs
    match s with
    | [] => rfl
    | c :: rest =>
      rw [subGo]
      cases hmatch : f (c :: rest) with
      | none =>
        simp only []
        have hrest : rest <:+ s0 := (List.suffix_cons c rest).trans hsuf
        have : rest.length ≤ n := by
          simpa using Nat.le_of_succ_le_succ hs
        rw [ih rest hrest this]
      | some rk =>
        obtain ⟨r, k⟩ := rk
        obtain ⟨hk, hr⟩ := hf _ _ _ hsuf hmatch
        simp only []
        have hmax : max k 1 = k := by omega
        rw [hmax, hr]
        have hdropsuf : (c :: rest).drop k <:+ s0 :=
          (List.drop_suffix k (c :: rest)).trans hsuf
        have hlen : ((c :: rest).drop k).length ≤ n := by
          simp only [List.length_drop, List.length_cons] at *
          omega
        rw [ih _ hdropsuf hlen, List.take_append_drop]

/-- Claim C4 (amended): the dedicated safe-rewrite step
`_safe_rewrite_imports_to_source` repoints a `from X import` only when `X`
is in the fixed allow-list {app, main, your_module, module, solution,
program} — whenever no suffix of the test matches the from-import pattern
with an allow-listed module, the step leaves the test completely unchanged.
However, "preprocessing" as a whole does **not** leave other imports
unchanged: the preceding step of `_preprocess_python` additionally repoints
any module from which the test imports a name defined at top level of the
source (see the counterexample `preprocess_rewrites_nonallowlisted`). -/
theorem safe_rewrite_only_allowlist (test : String)
    (h : ∀ t ∈ test.data.tails,
      (fromImportScan t).all
        (fun mk => decide (String.mk mk.1 ∉ _ALLOWED_REWRITE_MODULES)) = true) :
    _safe_rewrite_imports_to_source test = test := by
  have hf : ∀ t r k, t <:+ test.data → safeRewriteRepl t = some (r, k) →
      1 ≤ k ∧ r = t.take k := by
    intro t r k hsuf hrepl
    cases hscan : fromImportScan t with
    | none =>
      simp only [safeRewriteRepl, hscan] at hrepl
      cases hrepl
    | some mk =>
      obtain ⟨mod, k'⟩ := mk
      simp only [safeRewriteRepl, hscan] at hrepl
      have hmod : String.mk mod ∉ _ALLOWED_REWRITE_MODULES := by
        have hh := h t ((List.mem_tails _ _).2 hsuf)
        rw [hscan] at hh
        simpa using hh
      rw [if_neg hmod] at hrepl
      injection hrepl with hpair
      have h1 : t.take k' = r := congrArg Prod.fst hpair
      have h2 : k' = k := congrArg Prod.snd hpair
      subst h2
      exact ⟨fromImportScan_pos hscan, h1.symm⟩
  have hmain := subGo_id_suffix safeRewriteRepl test.data hf test.data.length
    test.data (List.suffix_refl _) (Nat.le_refl _)
  unfold _safe_rewrite_imports_to_source pySub
  rw [hmain]

/-- Claim C4, witness: a test importing from the non-allow-listed module
`mylib` passes through the safe-rewrite step unchanged, while the
allow-listed placeholder `app` is repointed to `source`. -/
theorem safe_rewrite_only_allowlist_witness :
    _safe_rewrite_imports_to_source "from mylib import foo"
      = "from mylib import foo" ∧
    _safe_rewrite_imports_to_source "from app import foo"
      = "from source import foo" := by
  constructor
  · exact safe_rewrite_only_allowlist "from mylib import foo" (by decide)
  · decide

/-- An `ast.ImportFrom` node as read by step 0 of `_preprocess_python`:
dotted module (possibly absent), relative-import level, and alias names. -/
structure PyImportFrom where
  module : Option String
  level : Nat
  names : List String
  deriving Repr, DecidableEq

/-- The `ast.walk` loop of `_preprocess_python` step 0: collect the modules
from which the test imports `*` or a name defined at top level of the
source, skipping stdlib modules and `source` itself. -/
def userSourceModulesFromTest (sysStdlib : List String)
    (sourceTopDefs : List String) (importFroms : List PyImportFrom) :
    List String :=
  importFroms.filterMap (fun node =>
    match node.module with
    | none => none
    | some m =>
      if m ≠ "" ∧ node.level = 0 then
        let mod := splitDotHead m
        if mod ∈ sysStdlib ∨ mod ∈ stdlibExplicit ∨ mod = "source" then none
        else if node.names.any (fun a => a = "*" || decide (a ∈ sourceTopDefs)) then
          some mod
        else none
      else none)

/-- The head match of `#\s*File:\s*([\w]+)\.py` returning the module name. -/
def fileHeaderAt (s : List Char) : Option (List Char) :=
  match matchLit "#".data s with
  | none => none
  | some r1 =>
    match matchLit "File:".data (r1.dropWhile isPySpace) with
    | none => none
    | some r3 =>
      match matchPlus isWordChar (r3.dropWhile isPySpace) with
      | none => none
      | some (w, r5) =>
        match matchLit ".py".data r5 with
        | some _ => some w
        | none => none

/-- `re.search(r'#\s*File:\s*([\w]+)\.py', source_code)`: the module name of
a `# File: xxx.py` header, if present. -/
def fileHeaderModule (sourceCode : String) : Option String :=
  (scanFor fileHeaderAt sourceCode.data).map String.mk

/-- One line under `re.sub(rf"^\s*from\s+{mod}\s+import\s+",
"from source import ", …, flags=re.MULTILINE)`. -/
def rewriteUserModLine (mod : String) (line : List Char) : List Char :=
  match matchLit "from".data (line.dropWhile isPySpace) with
  | none => line
  | some r1 =>
    match matchPlus isPySpace r1 with
    | none => line
    | some (_, r2) =>
      match matchLit mod.data r2 with
      | none => line
      | some r3 =>
        match matchPlus isPySpace r3 with
        | none => line
        | some (_, r4) =>
          match matchLit "import".data r4 with
          | none => line
          | some r5 =>
            match matchPlus isPySpace r5 with
            | none => line
            | some (_, r6) => "from source import ".data ++ r6

/-- The per-module MULTILINE import rewrite of `_preprocess_python` step 0,
applied line by line. -/
def rewriteUserModuleImports (mod : String) (test : String) : String :=
  String.mk (joinCh ['\n'] ((splitNlCh test.data).map (rewriteUserModLine mod)))

/-- The head match of `(patch\(\s*['\"])(mod₁|mod₂|…)\.` for the given
prefix (`patch(` or `@patch(`) and module alternation, replacing the match
by the captured group followed by `source.`. -/
def patchModsRepl (pre : String) (mods : List String) (t : List Char) :
    Option (List Char × Nat) :=
  match matchLit pre.data t with
  | none => none
  | some r1 =>
    let ws := r1.takeWhile isPySpace
    match r1.dropWhile isPySpace with
    | [] => none
    | q :: r3 =>
      if q = '\'' || q = '"' then
        (mods.filterMap (fun mod =>
          match matchLit mod.data r3 with
          | none => none
          | some r4 =>
            match r4 with
            | '.' :: _ =>
              some (pre.data ++ ws ++ [q] ++ "source.".data,
                    pre.length + ws.length + 1 + mod.length + 1)
            | _ => none)).head?
      else none

/-- `_rewrite_patch_targets_to_source(test_code)`
(docker_executor.py lines 383–389). -/
def _rewrite_patch_targets_to_source (test : String) : String :=
  pySub (patchModsRepl "@patch(" _ALLOWED_REWRITE_MODULES)
    (pySub (patchModsRepl "patch(" _ALLOWED_REWRITE_MODULES) test)

/-- Step 0 of `_preprocess_python` (docker_executor.py lines 524–568):
detect the user's actual source-module names (from a `# File:` header and
from test imports of source-defined names) and rewrite their imports and
patch targets to `source`. -/
def preprocessStep0 (sysStdlib sourceTopDefs : List String)
    (sourceCode : String) (testImports : Option (List PyImportFrom))
    (test : String) : String :=
  let userMods0 : List String :=
    match fileHeaderModule sourceCode with
    | some w => [w]
    | none => []
  let userMods :=
    if sourceTopDefs ≠ [] then
      match testImports with
      | none => userMods0
      | some nodes =>
        userMods0 ++ userSourceModulesFromTest sysStdlib sourceTopDefs nodes
    else userMods0
  (userMods.dedup).foldl (fun acc mod =>
    pySub (patchModsRepl "@patch(" [mod])
      (pySub (patchModsRepl "patch(" [mod]) (rewriteUserModuleImports mod acc)))
    test

/-- The import-rewriting stage of `_preprocess_python` (steps 0 and 1,
docker_executor.py lines 524–572): the user-module rewrite, then the
allow-list-only safe rewrite and patch-target rewrite. -/
def preprocessImportRewrites (sysStdlib sourceTopDefs : List String)
    (sourceCode : String) (testImports : Option (List PyImportFrom))
    (test : String) : String :=
  _rewrite_patch_targets_to_source
    (_safe_rewrite_imports_to_source
      (preprocessStep0 sysStdlib sourceTopDefs sourceCode testImports test))

/-- Claim C4, counterexample to the claim as stated: preprocessing does
**not** leave every non-allow-listed import unchanged — for a source
defining top-level `foo` and a test reading `from calculator import foo`,
step 0 of `_preprocess_python` repoints the import to
`from source import foo` although `calculator` is not in the allow-list. -/
theorem preprocess_rewrites_nonallowlisted :
    preprocessImportRewrites [] ["foo"] "def foo():\n    return 1\n"
        (some [{ module := some "calculator", level := 0, names := ["foo"] }])
        "from calculator import foo"
      = "from source import foo" ∧
    ("calculator" : String) ∉ _ALLOWED_REWRITE_MODULES := by
  refine ⟨by decide, by decide⟩

end TestSphere
